import Mathlib

/-!
# Verification of the thermal control subsystem (`Firmware/temperature.cpp`)

Shallow embedding of the thermal-control code of the printer firmware and
proofs of the specification claims about it.

Modelling conventions:
* C `float`/`double` values are modelled as exact rationals (`ℚ`); where IEEE
  NaN semantics matter (the model-calibration checks) a float is modelled as
  `Option ℚ` with `none` standing for NaN.
* C integer types are modelled as `ℤ`/`ℕ`; C integer division truncates toward
  zero and is rendered as `Int.tdiv`, an arithmetic right shift by one is a
  floor division by two.
* Each embedded definition mirrors one function (or a contiguous fragment) of
  `Firmware/temperature.cpp`; the corresponding source lines are cited in the
  doc comments.
-/

namespace Thermal

/-! ## Latched error state machine (`set_temp_error`, lines 459-525)

`temp_error_state` is a packed bitfield: `error:1`, `assert:1`, `source:2`,
`index:1`, `type:3`.  The error types, in decreasing priority, are
`max = 0`, `min = 1`, `preheat = 2`, `runaway = 3`, `model = 4`
(enum `TempErrorType`, lines 468-478). -/

/-- The latched error word `temp_error_state` (lines 480-492).  Bitfield
widths are reflected by reducing stored values modulo the field size. -/
structure ErrorState where
  error : Bool
  asserted : Bool
  source : ℕ
  index : ℕ
  etype : ℕ
  deriving Repr, DecidableEq

/-- One invocation of `set_temp_error(source, index, type)`; `etype` is the
ordinal of the `TempErrorType` argument (0..4). -/
structure ErrorCall where
  source : ℕ
  index : ℕ
  etype : ℕ
  deriving Repr, DecidableEq

/-- The cleared error state: the whole word `temp_error_state.v` is zero. -/
def clearedError : ErrorState :=
  { error := false, asserted := false, source := 0, index := 0, etype := 0 }

/-- `set_temp_error` (lines 497-520), restricted to its effect on the latched
error word (the heater shutdown, fan output and the recovery snapshot it also
performs do not touch `temp_error_state`).  The record `{source, index, type}`
is overwritten only when no error is latched yet or the new type has a
strictly smaller ordinal; the `error` and `assert` bits are always set. -/
def set_temp_error (s : ErrorState) (c : ErrorCall) : ErrorState :=
  let s1 :=
    if s.error = false ∨ c.etype < s.etype then
      { s with source := c.source % 4, index := c.index % 2, etype := c.etype % 8 }
    else s
  { s1 with error := true, asserted := true }

/-- Minimum ordinal (= highest priority) of the types raised by `calls`,
starting from the ordinal `t` of the first raise. -/
def minRaised (t : ℕ) (calls : List ErrorCall) : ℕ :=
  calls.foldl (fun a c => min a c.etype) t

theorem set_temp_error_error (s : ErrorState) (c : ErrorCall) :
    (set_temp_error s c).error = true := rfl

theorem set_temp_error_etype_latched (s : ErrorState) (c : ErrorCall)
    (hs : s.error = true) (hc : c.etype < 8) :
    (set_temp_error s c).etype = min s.etype c.etype := by
  simp only [set_temp_error, hs]
  rcases lt_or_le c.etype s.etype with h | h
  · simp [h, Nat.mod_eq_of_lt hc, Nat.min_eq_right h.le]
  · simp [h.not_lt, Nat.min_eq_left h]

/-- Folding `set_temp_error` from a latched state computes the running
minimum of the raised ordinals. -/
theorem foldl_set_temp_error (calls : List ErrorCall) :
    ∀ s : ErrorState, s.error = true → (∀ c ∈ calls, c.etype < 8) →
      ((calls.foldl set_temp_error s).error = true ∧
       (calls.foldl set_temp_error s).etype = minRaised s.etype calls) := by
  induction calls with
  | nil => intro s hs _; exact ⟨hs, rfl⟩
  | cons c rest ih =>
    intro s hs hlt
    have hc : c.etype < 8 := hlt c (List.mem_cons_self c rest)
    have hrest : ∀ c' ∈ rest, c'.etype < 8 := fun c' hc' => hlt c' (List.mem_cons_of_mem c hc')
    have h1 := ih (set_temp_error s c) (set_temp_error_error s c) hrest
    refine ⟨h1.1, ?_⟩
    rw [List.foldl_cons] at *
    rw [h1.2, set_temp_error_etype_latched s c hs hc]
    rfl

/-- Claim C1: latched-error priority invariant.  Starting from the cleared
error word, after any non-empty sequence of `set_temp_error` calls (with valid
3-bit type ordinals) the `error` bit is set and the recorded type is the
minimum ordinal (= highest priority, `Max > Min > Preheat > Runaway > Model`)
ever raised; moreover a call never increases the recorded ordinal of a latched
state, and it overwrites the recorded `{source, index, type}` exactly when no
error is latched yet or the new type has a strictly smaller ordinal. -/
theorem C1_latched_error_priority (c0 : ErrorCall) (rest : List ErrorCall)
    (h : ∀ c ∈ c0 :: rest, c.etype < 8) :
    (((c0 :: rest).foldl set_temp_error clearedError).error = true ∧
     ((c0 :: rest).foldl set_temp_error clearedError).etype = minRaised c0.etype rest) ∧
    (∀ s c, s.error = true → (set_temp_error s c).etype ≤ s.etype) ∧
    (∀ s c, ¬(s.error = false ∨ c.etype < s.etype) →
      (set_temp_error s c).source = s.source ∧ (set_temp_error s c).index = s.index ∧
      (set_temp_error s c).etype = s.etype) ∧
    (∀ s c, (s.error = false ∨ c.etype < s.etype) →
      (set_temp_error s c).source = c.source % 4 ∧ (set_temp_error s c).index = c.index % 2 ∧
      (set_temp_error s c).etype = c.etype % 8) := by
  have hc0 : c0.etype < 8 := h c0 (List.mem_cons_self c0 rest)
  have hrest : ∀ c ∈ rest, c.etype < 8 := fun c hc => h c (List.mem_cons_of_mem c0 hc)
  have hfirst : set_temp_error clearedError c0 =
      { error := true, asserted := true, source := c0.source % 4, index := c0.index % 2,
        etype := c0.etype % 8 } := by
    simp [set_temp_error, clearedError]
  refine ⟨?_, ?_, ?_, ?_⟩
  · rw [Nat.mod_eq_of_lt hc0] at hfirst
    rw [List.foldl_cons, hfirst]
    exact foldl_set_temp_error rest _ rfl hrest
  · intro s c hs
    simp only [set_temp_error, hs]
    rcases lt_or_le c.etype s.etype with hlt | hle
    · simp only [hlt, or_true, if_pos, reduceCtorEq, false_or]
      exact le_of_lt (lt_of_le_of_lt (Nat.mod_le _ _) hlt)
    · simp [hle.not_lt]
  · intro s c hcond
    simp [set_temp_error, hcond]
  · intro s c hcond
    simp [set_temp_error, hcond]

/-- Witness for C1 at a concrete call sequence: raising Runaway (3), then
Model (4), then Min (1), then Preheat (2) latches the error with recorded
type Min (ordinal 1), the highest priority raised. -/
theorem C1_latched_error_priority_witness :
    (([⟨0, 0, 3⟩, ⟨2, 0, 4⟩, ⟨0, 1, 1⟩, ⟨0, 0, 2⟩] : List ErrorCall).foldl
        set_temp_error clearedError).error = true ∧
    (([⟨0, 0, 3⟩, ⟨2, 0, 4⟩, ⟨0, 1, 1⟩, ⟨0, 0, 2⟩] : List ErrorCall).foldl
        set_temp_error clearedError).etype = 1 := by
  have h := (C1_latched_error_priority ⟨0, 0, 3⟩ [⟨2, 0, 4⟩, ⟨0, 1, 1⟩, ⟨0, 0, 2⟩]
    (by decide)).1
  exact ⟨h.1, h.2.trans (by decide)⟩

/-! ## Foreground/ISR temperature synchronization (`updateTemperatures`,
lines 2109-2142) -/

/-- The cross-context temperature state touched by `updateTemperatures`:
foreground mirrors (`current_temperature`, `target_temperature`, bed
variants), the ISR-side values (`*_isr`), the latched error word
`temp_error_state.v` and the `temp_meas_ready` flag.  Per-extruder arrays are
modelled as functions from the extruder number. -/
structure TempSyncState where
  current_temperature_isr : ℕ → ℚ
  current_temperature : ℕ → ℚ
  current_temperature_bed_isr : ℚ
  current_temperature_bed : ℚ
  target_temperature : ℕ → ℤ
  target_temperature_isr : ℕ → ℤ
  target_temperature_bed : ℤ
  target_temperature_bed_isr : ℤ
  errorWord : ℕ
  temp_meas_ready : Bool

/-- `setCurrentTemperaturesFromIsr` (lines 2109-2120) for `E` extruders. -/
def setCurrentTemperaturesFromIsr (E : ℕ) (s : TempSyncState) : TempSyncState :=
  { s with
    current_temperature := fun e => if e < E then s.current_temperature_isr e
                                    else s.current_temperature e
    current_temperature_bed := s.current_temperature_bed_isr }

/-- `setIsrTargetTemperatures` (lines 2122-2127) for `E` extruders. -/
def setIsrTargetTemperatures (E : ℕ) (s : TempSyncState) : TempSyncState :=
  { s with
    target_temperature_isr := fun e => if e < E then s.target_temperature e
                                       else s.target_temperature_isr e
    target_temperature_bed_isr := s.target_temperature_bed }

/-- `updateTemperatures` (lines 2133-2142): refresh the foreground current
temperatures from the ISR, copy the targets to the ISR mirrors only when the
whole error word is zero, and clear `temp_meas_ready`. -/
def updateTemperatures (E : ℕ) (s : TempSyncState) : TempSyncState :=
  let s1 := setCurrentTemperaturesFromIsr E s
  let s2 := if s1.errorWord = 0 then setIsrTargetTemperatures E s1 else s1
  { s2 with temp_meas_ready := false }

/-- Claim C8: targets are frozen on error.  `updateTemperatures` copies the
foreground targets into the ISR-visible mirrors exactly when the whole error
word is zero; when any error is latched the ISR target mirrors are unchanged,
while the current-temperature mirrors are still refreshed. -/
theorem C8_targets_frozen_on_error (E : ℕ) (s : TempSyncState) :
    (s.errorWord ≠ 0 →
      (updateTemperatures E s).target_temperature_isr = s.target_temperature_isr ∧
      (updateTemperatures E s).target_temperature_bed_isr = s.target_temperature_bed_isr) ∧
    (s.errorWord = 0 →
      (∀ e < E, (updateTemperatures E s).target_temperature_isr e = s.target_temperature e) ∧
      (updateTemperatures E s).target_temperature_bed_isr = s.target_temperature_bed) ∧
    ((∀ e < E, (updateTemperatures E s).current_temperature e = s.current_temperature_isr e) ∧
      (updateTemperatures E s).current_temperature_bed = s.current_temperature_bed_isr) := by
  refine ⟨?_, ?_, ?_, ?_⟩
  · intro hne
    simp [updateTemperatures, setCurrentTemperaturesFromIsr, setIsrTargetTemperatures, hne]
  · intro he
    constructor
    · intro e helt
      simp [updateTemperatures, setCurrentTemperaturesFromIsr, setIsrTargetTemperatures, he, helt]
    · simp [updateTemperatures, setCurrentTemperaturesFromIsr, setIsrTargetTemperatures, he]
  · intro e helt
    simp only [updateTemperatures, setCurrentTemperaturesFromIsr, setIsrTargetTemperatures]
    split <;> simp [helt]
  · simp only [updateTemperatures, setCurrentTemperaturesFromIsr, setIsrTargetTemperatures]
    split <;> simp

/-- Concrete state used by the C8 witness: one extruder, error latched
(`errorWord = 1`). -/
def tempSyncExample : TempSyncState :=
  { current_temperature_isr := fun _ => 215
    current_temperature := fun _ => 20
    current_temperature_bed_isr := 60
    current_temperature_bed := 21
    target_temperature := fun _ => 230
    target_temperature_isr := fun _ => 210
    target_temperature_bed := 90
    target_temperature_bed_isr := 55
    errorWord := 1
    temp_meas_ready := true }

/-- Witness for C8: with an error latched, the ISR target mirrors survive
`updateTemperatures` unchanged while the currents are refreshed. -/
theorem C8_targets_frozen_on_error_witness :
    (updateTemperatures 1 tempSyncExample).target_temperature_isr =
      tempSyncExample.target_temperature_isr ∧
    (updateTemperatures 1 tempSyncExample).target_temperature_bed_isr =
      tempSyncExample.target_temperature_bed_isr ∧
    (updateTemperatures 1 tempSyncExample).current_temperature_bed =
      tempSyncExample.current_temperature_bed_isr := by
  have h := C8_targets_frozen_on_error 1 tempSyncExample
  have h1 := h.1 (by simp [tempSyncExample])
  exact ⟨h1.1, h1.2, h.2.2.2⟩

/-! ## Raw-to-temperature conversion (`analog2temp`, lines 564-604)

A temperature table is an ordered list of `(raw, °C)` pairs with strictly
increasing raw keys; for the NTC thermistor tables the temperatures are
nonincreasing in the raw key.  The 16-bit table entries and the float
interpolation are modelled over `ℚ`. -/

/-- The lookup loop of `analog2temp` (lines 586-596): starting from the
previous entry `p`, find the first remaining entry whose raw key exceeds
`raw` and interpolate linearly inside that segment; if no entry's key exceeds
`raw` the loop falls off the table and the last entry's temperature is used
(line 599, `if (i == heater_ttbllen_map[e]) celsius = ...`). -/
def a2tScan (p : ℚ × ℚ) : List (ℚ × ℚ) → ℚ → ℚ
  | [], _ => p.2
  | q :: rest, raw =>
      if q.1 > raw then p.2 + (raw - p.1) * (q.2 - p.2) / (q.1 - p.1)
      else a2tScan q rest raw

/-- `analog2temp` (lines 580-602) in the non-null-table case; an empty table
leaves `celsius` at its initial `0`. -/
def analog2temp_table (tbl : List (ℚ × ℚ)) (raw : ℚ) : ℚ :=
  match tbl with
  | [] => 0
  | p :: rest => a2tScan p rest raw

/-- The last entry of the table `p :: rest`. -/
def lastEntry (p : ℚ × ℚ) : List (ℚ × ℚ) → ℚ × ℚ
  | [] => p
  | q :: rest => lastEntry q rest

/-- Raw keys strictly increase along the table. -/
def keysSorted (tbl : List (ℚ × ℚ)) : Prop :=
  List.Chain' (fun a b => a.1 < b.1) tbl

/-- Temperatures do not increase along the table (NTC thermistor shape). -/
def tempsAntitone (tbl : List (ℚ × ℚ)) : Prop :=
  List.Chain' (fun a b => b.2 ≤ a.2) tbl

theorem lastEntry_key_le (p : ℚ × ℚ) (rest : List (ℚ × ℚ))
    (hkeys : keysSorted (p :: rest)) : p.1 ≤ (lastEntry p rest).1 := by
  induction rest generalizing p with
  | nil => exact le_refl _
  | cons q rest ih =>
    rcases List.chain'_cons.mp hkeys with ⟨hpq, hrest⟩
    exact le_trans hpq.le (ih q hrest)

/-- Within a key-sorted, temperature-antitone table, the scan never returns a
value above the temperature of the entry it starts from (for raw at or above
that entry's key). -/
theorem a2tScan_le_head (rest : List (ℚ × ℚ)) :
    ∀ p : ℚ × ℚ, ∀ raw : ℚ, keysSorted (p :: rest) → tempsAntitone (p :: rest) →
      p.1 ≤ raw → a2tScan p rest raw ≤ p.2 := by
  induction rest with
  | nil => intro p raw _ _ _; exact le_refl _
  | cons q rest ih =>
    intro p raw hkeys hvals hraw
    rcases List.chain'_cons.mp hkeys with ⟨hpq, hkeys'⟩
    rcases List.chain'_cons.mp hvals with ⟨hqp, hvals'⟩
    simp only [a2tScan]
    split
    · have hnum : (raw - p.1) * (q.2 - p.2) ≤ 0 :=
        mul_nonpos_of_nonneg_of_nonpos (by linarith) (by linarith)
      have hdiv : (raw - p.1) * (q.2 - p.2) / (q.1 - p.1) ≤ 0 :=
        div_nonpos_iff.mpr (Or.inr ⟨hnum, by linarith⟩)
      linarith
    · rename_i hcond
      have hqraw : q.1 ≤ raw := by
        simpa using not_lt.mp hcond
      exact le_trans (ih q raw hkeys' hvals' hqraw) hqp

/-- Within a key-sorted, temperature-antitone table, the scan result is
antitone in `raw` for raw at or above the starting entry's key. -/
theorem a2tScan_antitone (rest : List (ℚ × ℚ)) :
    ∀ p : ℚ × ℚ, ∀ raw1 raw2 : ℚ, keysSorted (p :: rest) → tempsAntitone (p :: rest) →
      p.1 ≤ raw1 → raw1 ≤ raw2 → a2tScan p rest raw2 ≤ a2tScan p rest raw1 := by
  induction rest with
  | nil => intro p raw1 raw2 _ _ _ _; exact le_refl _
  | cons q rest ih =>
    intro p raw1 raw2 hkeys hvals hraw1 h12
    rcases List.chain'_cons.mp hkeys with ⟨hpq, hkeys'⟩
    rcases List.chain'_cons.mp hvals with ⟨hqp, hvals'⟩
    have hden : (0 : ℚ) < q.1 - p.1 := by linarith
    simp only [a2tScan]
    rcases lt_or_le raw2 q.1 with h2 | h2
    · have h1 : raw1 < q.1 := lt_of_le_of_lt h12 h2
      rw [if_pos (by exact h2), if_pos (by exact h1)]
      have hnum : (raw2 - p.1) * (q.2 - p.2) ≤ (raw1 - p.1) * (q.2 - p.2) :=
        mul_le_mul_of_nonpos_right (by linarith) (by linarith)
      have := (div_le_div_iff_of_pos_right hden).mpr hnum
      linarith
    · rcases lt_or_le raw1 q.1 with h1 | h1
      · rw [if_neg (not_lt.mpr h2), if_pos (by exact h1)]
        have hscan : a2tScan q rest raw2 ≤ q.2 :=
          a2tScan_le_head rest q raw2 hkeys' hvals' (le_trans h2 (le_refl _))
        have hq2 : q.2 ≤ p.2 + (raw1 - p.1) * (q.2 - p.2) / (q.1 - p.1) := by
          have hnum : (q.1 - p.1) * (q.2 - p.2) ≤ (raw1 - p.1) * (q.2 - p.2) :=
            mul_le_mul_of_nonpos_right (by linarith) (by linarith)
          have hdiv := (div_le_div_iff_of_pos_right hden).mpr hnum
          rw [mul_div_cancel_left₀ _ (ne_of_gt hden)] at hdiv
          linarith
        exact le_trans hscan hq2
      · rw [if_neg (not_lt.mpr h2), if_neg (not_lt.mpr h1)]
        exact ih q raw1 raw2 hkeys' hvals' h1 h12

/-- Claim C4: conversion monotonicity and high-end saturation.  For a
non-empty table with strictly increasing raw keys and nonincreasing
temperatures, `analog2temp` is monotone (nonincreasing) in the raw value from
the first key upward, and for every raw value at or above the table's largest
key it returns exactly the last entry's temperature. -/
theorem C4_conversion_monotone_saturates (p : ℚ × ℚ) (rest : List (ℚ × ℚ))
    (hkeys : keysSorted (p :: rest)) (hvals : tempsAntitone (p :: rest)) :
    (∀ raw1 raw2 : ℚ, p.1 ≤ raw1 → raw1 ≤ raw2 →
      analog2temp_table (p :: rest) raw2 ≤ analog2temp_table (p :: rest) raw1) ∧
    (∀ raw : ℚ, (lastEntry p rest).1 ≤ raw →
      analog2temp_table (p :: rest) raw = (lastEntry p rest).2) := by
  constructor
  · intro raw1 raw2 h1 h12
    exact a2tScan_antitone rest p raw1 raw2 hkeys hvals h1 h12
  · intro raw hraw
    simp only [analog2temp_table]
    induction rest generalizing p with
    | nil => rfl
    | cons q rest ih =>
      rcases List.chain'_cons.mp hkeys with ⟨hpq, hkeys'⟩
      rcases List.chain'_cons.mp hvals with ⟨_, hvals'⟩
      have hql : q.1 ≤ (lastEntry q rest).1 := lastEntry_key_le q rest hkeys'
      have hqraw : q.1 ≤ raw := le_trans hql hraw
      simp only [a2tScan, lastEntry]
      rw [if_neg (not_lt.mpr hqraw)]
      exact ih q hkeys' hvals' hraw

/-- Witness for C4 on the concrete table `[(0, 100), (10, 50), (20, 0)]`:
the conversion is nonincreasing between raw 3 and raw 15, and saturates to
the last temperature 0 for raw 25 beyond the largest key 20. -/
theorem C4_conversion_monotone_saturates_witness :
    analog2temp_table [(0, 100), (10, 50), (20, 0)] 15 ≤
      analog2temp_table [(0, 100), (10, 50), (20, 0)] 3 ∧
    analog2temp_table [(0, 100), (10, 50), (20, 0)] 25 = 0 := by
  have h := C4_conversion_monotone_saturates (0, 100) [(10, 50), (20, 0)]
    (by simp [keysSorted]; norm_num) (by simp [tempsAntitone]; norm_num)
  exact ⟨h.1 3 15 (by norm_num) (by norm_num),
        (h.2 25 (by norm_num [lastEntry])).trans (by norm_num [lastEntry])⟩

/-- Claim C10: implicit low-end behaviour.  For any raw value strictly below
the first key of a (sorted) table with at least two entries, `analog2temp`
linearly extrapolates along the first segment; for the concrete decreasing
table `[(10, 100), (20, 50)]` the raw value 0 yields 150, beyond the first
entry's 100 °C, so no saturation is applied at the low end. -/
theorem C10_low_end_extrapolation (p q : ℚ × ℚ) (rest : List (ℚ × ℚ)) (raw : ℚ)
    (hpq : p.1 < q.1) (hraw : raw < p.1) :
    analog2temp_table (p :: q :: rest) raw
      = p.2 + (raw - p.1) * (q.2 - p.2) / (q.1 - p.1) ∧
    analog2temp_table [(10, 100), (20, 50)] 0 = 150 ∧ (150 : ℚ) > 100 := by
  refine ⟨?_, by norm_num [analog2temp_table, a2tScan], by norm_num⟩
  simp only [analog2temp_table, a2tScan]
  rw [if_pos (lt_trans hraw hpq)]

/-- Witness for C10: extrapolating the table `[(10, 100), (20, 50)]` below
its first key at raw 0 follows the first segment's line and returns 150. -/
theorem C10_low_end_extrapolation_witness :
    analog2temp_table [(10, 100), (20, 50)] 0
      = 100 + ((0 : ℚ) - 10) * (50 - 100) / (20 - 10) := by
  exact (C10_low_end_extrapolation (10, 100) (20, 50) [] 0 (by norm_num) (by norm_num)).1

/-! ## Soft-PWM generator (`soft_pwm_core`, lines 1204-1317)

Standard modulation path (`SLOW_PWM_HEATERS` not defined) for heater 0 with
`SOFT_PWM_SCALE = 0`; heaters 1 and 2 follow the identical scheme. -/

/-- The per-tick state of the soft-PWM generator: the 7-bit counter
`pwm_count`, the latched duty snapshot `soft_pwm_0` and the heater pin
level. -/
structure PwmState where
  pwm_count : ℕ
  soft_pwm_0 : ℕ
  pin : Bool
  deriving Repr, DecidableEq

/-- One tick of `soft_pwm_core` (lines 1243-1317): at counter 0 the duty
register is latched into `soft_pwm_0` and the pin asserted iff the latched
duty is positive (lines 1243-1252); the pin is deasserted when the latched
duty is below the counter (line 1289); the counter then advances by
`1 << SOFT_PWM_SCALE` and is masked to 7 bits (lines 1316-1317). -/
def soft_pwm_tick (duty : ℕ) (s : PwmState) : PwmState :=
  let latched := if s.pwm_count = 0 then duty else s.soft_pwm_0
  let pin1 := if s.pwm_count = 0 then decide (0 < duty) else s.pin
  let pin2 := if latched < s.pwm_count then false else pin1
  { pwm_count := (s.pwm_count + 1) % 128, soft_pwm_0 := latched, pin := pin2 }

/-- The pin levels over `n` consecutive ticks with the duty register held
constant, each sample taken after the tick ran. -/
def pwmTrace (duty : ℕ) : ℕ → PwmState → List Bool
  | 0, _ => []
  | n + 1, s =>
    let s' := soft_pwm_tick duty s
    s'.pin :: pwmTrace duty n s'

/-- The pin levels over one full 128-tick soft-PWM window starting at
counter 0, with the duty register held constant. -/
def pwmWindow (duty : ℕ) : List Bool :=
  pwmTrace duty 128 { pwm_count := 0, soft_pwm_0 := 0, pin := false }

set_option maxRecDepth 10000 in
/-- Integer form of the duty-fraction bound, checked for all 128 duty
values: `|127*onCount - 128*d| <= 128`. -/
theorem pwmWindow_count_bounds (d : Fin 128) :
    127 * ((pwmWindow d.val).count true) ≤ 128 * d.val + 128 ∧
    128 * d.val ≤ 127 * ((pwmWindow d.val).count true) + 128 := by
  revert d
  decide

/-- Claim C3: soft-PWM duty fraction.  Over a 128-tick window with a constant
duty register, duty 0 keeps the heater pin strictly low, duty 127 keeps it
strictly high, and for every duty `d` the on-fraction of the window equals
`d/127` to within `±1/127`. -/
theorem C3_soft_pwm_duty_fraction (d : Fin 128) :
    (d.val = 0 → pwmWindow d.val = List.replicate 128 false) ∧
    (d.val = 127 → pwmWindow d.val = List.replicate 128 true) ∧
    |((pwmWindow d.val).count true : ℚ) / 128 - (d.val : ℚ) / 127| ≤ 1 / 127 := by
  refine ⟨fun h => by rw [h]; decide, fun h => by rw [h]; decide, ?_⟩
  have key := pwmWindow_count_bounds d
  have h1 : (127 * ((pwmWindow d.val).count true) : ℚ) ≤ 128 * (d.val : ℚ) + 128 := by
    exact_mod_cast key.1
  have h2 : (128 * (d.val : ℚ)) ≤ 127 * ((pwmWindow d.val).count true : ℚ) + 128 := by
    exact_mod_cast key.2
  rw [abs_le]
  constructor <;> [linarith; linarith]

/-- Witness for C3 at duty 0: the pin is strictly low over the whole window
and the on-fraction bound holds. -/
theorem C3_soft_pwm_duty_fraction_witness :
    pwmWindow 0 = List.replicate 128 false ∧
    |((pwmWindow 0).count true : ℚ) / 128 - (0 : ℚ) / 127| ≤ 1 / 127 := by
  have h := C3_soft_pwm_duty_fraction 0
  exact ⟨h.1 rfl, h.2.2⟩

/-! ## Hotend PID regulator (`pid_heater`, lines 1890-1967)

Configuration from `PIDTEMP` without `PID_OPENLOOP`/`PonM`.  The gains
`cs.Kp/Ki/Kd` are runtime-settable (M301), `PID_K1`, `PID_MAX` and the
per-extruder `maxttemp[e]`, `iState_sum_min/max[e]` come from the build
configuration; all are parameters of the embedding.  Floats are modelled as
exact rationals. -/

/-- Per-extruder PID configuration: gains, the derivative filter constant
`PID_K1`, the output limit `PID_MAX`, the integral clamp range
`iState_sum_min[e]`/`iState_sum_max[e]` and the temperature cutoff
`maxttemp[e]`. -/
structure PidParams where
  Kp : ℚ
  Ki : ℚ
  Kd : ℚ
  K1 : ℚ
  pid_max : ℚ
  iState_sum_min : ℚ
  iState_sum_max : ℚ
  maxttemp : ℚ
  deriving Repr, DecidableEq

/-- Per-extruder PID state: `iState_sum[e]`, `dTerm[e]`, `dState_last[e]`,
`pid_reset[e]` and the duty register `soft_pwm[e]`. -/
structure PidState where
  iState_sum : ℚ
  dTerm : ℚ
  dState_last : ℚ
  pid_reset : Bool
  soft_pwm : ℤ
  deriving Repr, DecidableEq

/-- Clamp (`constrain`) a value to `[lo, hi]`. -/
def constrain (x lo hi : ℚ) : ℚ := min (max x lo) hi

/-- One `pid_heater(e, current, target)` step (lines 1890-1967) together with
the pre-saturation controller output `pid_output` it computed (second
component; 0 in the `target == 0` branch).  The duty register is written as
`(int)pid_output >> 1` when `current < maxttemp[e] && target != 0`, else 0;
`pid_output` is in `[0, PID_MAX]` at that point so the C cast truncation
agrees with the floor. -/
def pid_heater_core (p : PidParams) (s : PidState) (current : ℚ) (target : ℤ) :
    PidState × ℚ × ℚ :=
  if target = 0 then
    let pid_output : ℚ := 0
    let s1 := { s with pid_reset := true, dState_last := current }
    let duty : ℤ := if current < p.maxttemp ∧ target ≠ 0 then ⌊pid_output⌋ / 2 else 0
    ({ s1 with soft_pwm := duty }, pid_output, pid_output)
  else
    let pid_error : ℚ := target - current
    let s1 := if s.pid_reset then { s with iState_sum := 0, dTerm := 0, pid_reset := false }
              else s
    let pTerm : ℚ := p.Kp * pid_error
    let iState1 : ℚ := constrain (s1.iState_sum + pid_error) p.iState_sum_min p.iState_sum_max
    let iTerm : ℚ := p.Ki * iState1
    let dTerm1 : ℚ := (p.Kd * (current - s1.dState_last)) * (1 - p.K1) + p.K1 * s1.dTerm
    let raw_output : ℚ := pTerm + iTerm - dTerm1
    let iState2 : ℚ :=
      if raw_output > p.pid_max then (if pid_error > 0 then iState1 - pid_error else iState1)
      else if raw_output < 0 then (if pid_error < 0 then iState1 - pid_error else iState1)
      else iState1
    let pid_output : ℚ := if raw_output > p.pid_max then p.pid_max
                          else if raw_output < 0 then 0 else raw_output
    let duty : ℤ := if current < p.maxttemp ∧ target ≠ 0 then ⌊pid_output⌋ / 2 else 0
    ({ iState_sum := iState2, dTerm := dTerm1, dState_last := current,
       pid_reset := false, soft_pwm := duty }, pid_output, raw_output)

/-- The state after one `pid_heater` step. -/
def pid_heater (p : PidParams) (s : PidState) (current : ℚ) (target : ℤ) : PidState :=
  (pid_heater_core p s current target).1

theorem constrain_le (x lo hi : ℚ) : constrain x lo hi ≤ hi := min_le_right _ _

theorem le_constrain (x lo hi : ℚ) (h : lo ≤ hi) : lo ≤ constrain x lo hi :=
  le_min (le_max_right x lo) h

/-- Bounds on the conditionally un-integrated value: starting from a clamped
value `c` in `[lo, hi]`, the saturation cases subtract `e` or leave `c`
alone, so the result stays in `[lo - max(e,0), hi - min(e,0)]`, and in
`[lo, hi]` itself when the raw output `r` lies in `[0, m]`. -/
theorem unintegrate_bounds (lo hi e c r m : ℚ) (hc1 : lo ≤ c) (hc2 : c ≤ hi) :
    (lo - max e 0 ≤ (if r > m then (if e > 0 then c - e else c)
        else if r < 0 then (if e < 0 then c - e else c) else c) ∧
      (if r > m then (if e > 0 then c - e else c)
        else if r < 0 then (if e < 0 then c - e else c) else c) ≤ hi - min e 0) ∧
    (0 ≤ r → r ≤ m →
      lo ≤ (if r > m then (if e > 0 then c - e else c)
        else if r < 0 then (if e < 0 then c - e else c) else c) ∧
      (if r > m then (if e > 0 then c - e else c)
        else if r < 0 then (if e < 0 then c - e else c) else c) ≤ hi) := by
  have h1 : (0 : ℚ) ≤ max e 0 := le_max_right _ _
  have h2 : e ≤ max e 0 := le_max_left _ _
  have h3 : min e 0 ≤ 0 := min_le_right _ _
  have h4 : min e 0 ≤ e := min_le_left _ _
  constructor
  · split_ifs <;> constructor <;> linarith
  · intro hr0 hrm
    split_ifs <;> constructor <;> linarith

/-- Claim C2 (amended): PID integral bounds with conditional anti-windup.
For every `pid_heater` step with non-zero target, the integral is clamped to
`[iState_sum_min, iState_sum_max]` inside the step, and the conditional
un-integration on saturation can move the stored value outside that range by
at most `|pid_error|`: the stored integral always lies in
`[iState_sum_min - max(e,0), iState_sum_max - min(e,0)]` with
`e = target - current`, and whenever the step's raw output did not saturate
(it lay in `[0, PID_MAX]`) the stored integral lies in
`[iState_sum_min, iState_sum_max]` itself. -/
theorem C2_pid_integral_bounds (p : PidParams) (s : PidState) (current : ℚ)
    (target : ℤ) (htarget : target ≠ 0)
    (hbounds : p.iState_sum_min ≤ p.iState_sum_max) :
    (p.iState_sum_min - max ((target : ℚ) - current) 0
        ≤ (pid_heater p s current target).iState_sum ∧
      (pid_heater p s current target).iState_sum
        ≤ p.iState_sum_max - min ((target : ℚ) - current) 0) ∧
    (0 ≤ (pid_heater_core p s current target).2.2 →
      (pid_heater_core p s current target).2.2 ≤ p.pid_max →
      p.iState_sum_min ≤ (pid_heater p s current target).iState_sum ∧
      (pid_heater p s current target).iState_sum ≤ p.iState_sum_max) := by
  simp only [pid_heater, pid_heater_core, if_neg htarget]
  split
  · exact unintegrate_bounds _ _ _ _ _ _ (le_constrain _ _ _ hbounds) (constrain_le _ _ _)
  · exact unintegrate_bounds _ _ _ _ _ _ (le_constrain _ _ _ hbounds) (constrain_le _ _ _)

/-- PID configuration for the C2 counterexample, scenario A: gains
`Kp = 16, Ki = 1, Kd = 0` (settable at runtime via M301), `PID_K1 = 0.95`,
`PID_MAX = 255`, integral clamp `[0, 219]`, `maxttemp = 1000`. -/
def pidCexParamsA : PidParams :=
  { Kp := 16, Ki := 1, Kd := 0, K1 := 19/20, pid_max := 255,
    iState_sum_min := 0, iState_sum_max := 219, maxttemp := 1000 }

/-- Fresh PID state (reset pending) for scenario A. -/
def pidCexStateA : PidState :=
  { iState_sum := 0, dTerm := 0, dState_last := 0, pid_reset := true, soft_pwm := 0 }

/-- PID configuration for the C2 counterexample, scenario B: gains
`Kp = Ki = Kd = 1`, `PID_K1 = 0.95`, `PID_MAX = 255`, integral clamp
`[0, 255]`, `maxttemp = 1000`. -/
def pidCexParamsB : PidParams :=
  { Kp := 1, Ki := 1, Kd := 1, K1 := 19/20, pid_max := 255,
    iState_sum_min := 0, iState_sum_max := 255, maxttemp := 1000 }

/-- PID state before scenario B: integral 10, last input 100. -/
def pidCexStateB : PidState :=
  { iState_sum := 10, dTerm := 0, dState_last := 100, pid_reset := false, soft_pwm := 0 }

/-- Counterexample to claim C2 as stated.  Scenario A: one `pid_heater` step
from a fresh state with target 250 at current 0 saturates high and
un-integrates, storing the integral -31, strictly below
`iState_sum_min = 0` - so the integral does not stay in
`[iState_sum_min, iState_sum_max]` after the step.  Scenario B: a step that
saturates high (raw output 410 > 255) is followed by an unsaturated step
(raw output 82 in `[0, 255]`) whose stored integral grows from 10 to 50 in
absolute value - so an unsaturated step after a saturation step can increase
`|iState_sum|`. -/
theorem C2_pid_integral_counterexample :
    ((pid_heater pidCexParamsA pidCexStateA 0 250).iState_sum = -31 ∧
      pidCexParamsA.iState_sum_min = 0 ∧ ¬((-31 : ℚ) ≥ 0)) ∧
    ((pid_heater_core pidCexParamsB pidCexStateB 100 300).2.2 = 410 ∧
      ¬((410 : ℚ) ≤ pidCexParamsB.pid_max) ∧
      (pid_heater pidCexParamsB pidCexStateB 100 300).iState_sum = 10 ∧
      (pid_heater_core pidCexParamsB
        (pid_heater pidCexParamsB pidCexStateB 100 300) 260 300).2.2 = 82 ∧
      (0 : ℚ) ≤ 82 ∧ (82 : ℚ) ≤ pidCexParamsB.pid_max ∧
      (pid_heater pidCexParamsB
        (pid_heater pidCexParamsB pidCexStateB 100 300) 260 300).iState_sum = 50 ∧
      |(50 : ℚ)| > |(10 : ℚ)|) := by
  norm_num [pid_heater, pid_heater_core, constrain, pidCexParamsA, pidCexStateA,
    pidCexParamsB, pidCexStateB]

/-- Witness for the amended C2 at scenario A's input: the stored integral
lies within the widened range `[0 - max(250, 0), 219 - min(250, 0)]`. -/
theorem C2_pid_integral_bounds_witness :
    pidCexParamsA.iState_sum_min - max ((250 : ℚ) - 0) 0
        ≤ (pid_heater pidCexParamsA pidCexStateA 0 250).iState_sum ∧
      (pid_heater pidCexParamsA pidCexStateA 0 250).iState_sum
        ≤ pidCexParamsA.iState_sum_max - min ((250 : ℚ) - 0) 0 := by
  have h := C2_pid_integral_bounds pidCexParamsA pidCexStateA 0 250 (by decide)
    (by norm_num [pidCexParamsA])
  exact ⟨by exact_mod_cast h.1.1, by exact_mod_cast h.1.2⟩

/-- Claim C7 (amended): off-state duty and reset flag.  After any
`pid_heater` step, the duty register is 0 whenever the target is zero or the
current temperature is at or above `maxttemp[e]`; the reset flag, however, is
set exactly when `target == 0` - the over-temperature cutoff alone zeroes the
duty but does not touch `pid_reset[e]`.  When the flag is set, the next step
with a non-zero target computes from a zeroed integral and derivative
state. -/
theorem C7_pid_off_state (p : PidParams) (s : PidState) (current : ℚ) (target : ℤ) :
    ((target = 0 ∨ p.maxttemp ≤ current) → (pid_heater p s current target).soft_pwm = 0) ∧
    ((pid_heater p s current target).pid_reset = true ↔ target = 0) ∧
    (s.pid_reset = true → target ≠ 0 →
      pid_heater p s current target =
        pid_heater p { s with iState_sum := 0, dTerm := 0 } current target) := by
  refine ⟨?_, ?_, ?_⟩
  · rintro (h | h)
    · simp [pid_heater, pid_heater_core, h]
    · simp only [pid_heater, pid_heater_core]
      split
      · simp
      · simp [not_lt.mpr h]
  · constructor
    · intro h
      by_contra hne
      simp [pid_heater, pid_heater_core, hne] at h
    · intro h
      simp [pid_heater, pid_heater_core, h]
  · intro hreset hne
    simp [pid_heater, pid_heater_core, hne, hreset]

/-- Counterexample to claim C7 as stated: with `maxttemp = 300`, a step at
current temperature 300 with the non-zero target 10 zeroes the duty register
but leaves `pid_reset[e]` clear, although the claim requires the reset flag
to be set whenever `current >= maxttemp`. -/
theorem C7_pid_off_state_counterexample :
    (pid_heater { pidCexParamsB with maxttemp := 300 }
        { pidCexStateB with pid_reset := false } 300 10).soft_pwm = 0 ∧
    (pid_heater { pidCexParamsB with maxttemp := 300 }
        { pidCexStateB with pid_reset := false } 300 10).pid_reset = false ∧
    (10 : ℤ) ≠ 0 ∧
    ({ pidCexParamsB with maxttemp := 300 } : PidParams).maxttemp ≤ 300 := by
  norm_num [pid_heater, pid_heater_core, constrain, pidCexParamsB, pidCexStateB]

/-- Witness for the amended C7: at target 0 the duty register is zeroed and
the reset flag is set. -/
theorem C7_pid_off_state_witness :
    (pid_heater pidCexParamsB pidCexStateB 25 0).soft_pwm = 0 ∧
    (pid_heater pidCexParamsB pidCexStateB 25 0).pid_reset = true := by
  have h := C7_pid_off_state pidCexParamsB pidCexStateB 25 0
  exact ⟨h.1 (Or.inl rfl), h.2.1.mpr rfl⟩

/-! ## Temperature model calibration validity (`temp_model::calibrated`,
lines 2379-2391)

For this component the IEEE NaN semantics of `float` decide the behaviour, so
a float is modelled as `Option ℚ`: `none` is NaN, `some x` a finite value.
IEEE 754 comparisons involving NaN are unordered: `>=` is false and `!=` is
true whenever either operand is NaN. -/

/-- A float: NaN (`none`) or a finite value. -/
def FloatQ : Type := Option ℚ

/-- The NaN literal `NAN`. -/
def nanF : FloatQ := none

/-- IEEE `x >= 0`: false when `x` is NaN. -/
def fgeZero : FloatQ → Bool
  | none => false
  | some x => decide (0 ≤ x)

/-- IEEE `x != y`: true whenever either operand is NaN (the comparison is
unordered, `==` is false, so its negation `!=` is true), otherwise decided by
the values.  In particular `x != NAN` is true for every `x` - including NaN
itself - which is what the source's validity checks compute. -/
def fne : FloatQ → FloatQ → Bool
  | some a, some b => decide (a ≠ b)
  | _, _ => true

/-- The model parameter block `temp_model::data` (`model_data`): `P`, `C`,
`R[0..TEMP_MODEL_R_SIZE)`, `Ta_corr`, `warn`, `err` (with
`TEMP_MODEL_R_SIZE = 16`). -/
structure ModelData where
  P : FloatQ
  C : FloatQ
  R : List FloatQ
  Ta_corr : FloatQ
  warn : FloatQ
  err : FloatQ

/-- `temp_model::calibrated` (lines 2379-2391): the checks in source order.
`P` and `C` are rejected when `!(x >= 0)` (negative or NaN), `Ta_corr`,
`warn` and `err` when `!(x != NAN)` (never, by IEEE semantics), and each
`R[i]` when `!(R[i] >= 0)`. -/
def calibrated (d : ModelData) : Bool :=
  if ¬ fgeZero d.P then false
  else if ¬ fgeZero d.C then false
  else if ¬ fne d.Ta_corr nanF then false
  else if d.R.any (fun r => ¬ fgeZero r) then false
  else if ¬ fne d.warn nanF then false
  else if ¬ fne d.err nanF then false
  else true

/-- The failing input for claim C9: `P = 1`, `C = 1`, all 16 `R[i] = 1`, but
`Ta_corr`, `warn` and `err` all NaN. -/
def modelDataNanCorr : ModelData :=
  { P := some 1, C := some 1, R := List.replicate 16 (some 1),
    Ta_corr := nanF, warn := nanF, err := nanF }

/-- The failing input for claim C9, variant with `P = 0`, `C = 0` (claim
requires strict positivity) and all other fields finite. -/
def modelDataZeroPC : ModelData :=
  { P := some 0, C := some 0, R := List.replicate 16 (some 1),
    Ta_corr := some 0, warn := some (6/5), err := some (12/5) }

/-- Claim C9 is a code bug: `temp_model::calibrated()` accepts parameter sets
the claim (and the spec, which the surrounding code clearly intends) rejects.
With NaN `Ta_corr`/`warn`/`err` the checks `!(x != NAN)` never fire because
IEEE `x != NAN` is identically true, and `P`/`C` equal to zero pass the
`>= 0` tests although the claim requires strict positivity - so `calibrated`
returns true on both failing inputs. -/
theorem C9_calibrated_code_bug :
    calibrated modelDataNanCorr = true ∧ calibrated modelDataZeroPC = true := by
  constructor <;> rfl

/-! ## PID autotune (`PID_autotune`, lines 234-435)

One iteration of the relay-tuning `for(;;)` loop is modelled as a pure step
on the loop's state; `_millis()` is the parameter `now`, `temp_meas_ready`
the parameter `sampleReady` and the freshly converted temperature the
parameter `sample`.  The serial report emitted at a low-to-high toggle is
returned as a `ZNReport`; loop termination is returned as a `TuneExit`. -/

/-- The `3.14159` literal of line 337. -/
def piC : ℚ := 314159 / 100000

/-- Arguments of `PID_autotune(temp, extruder, ncycles)`: `maxPower` is
`MAX_BED_POWER` for the bed (`extruder < 0`, `isBed`) and `PID_MAX` for a
hotend. -/
structure TuneParams where
  temp : ℚ
  ncycles : ℤ
  maxPower : ℤ
  isBed : Bool
  deriving Repr, DecidableEq

/-- The local state of the `PID_autotune` loop (lines 239-254): relay phase,
toggle timestamps `t1`/`t2`, half-periods `t_high`/`t_low`, relay offset
`bias`/`d`, completed-cycle counter `pid_cycle`, the running `max`/`min` of
the input, the warm-up counter `safety_check_cycles` with the recorded
`temp_ambient`, the report timestamp `temp_millis` and the heater duty. -/
structure TuneState where
  heating : Bool
  t1 : ℕ
  t2 : ℕ
  t_high : ℤ
  t_low : ℤ
  bias : ℤ
  d : ℤ
  pid_cycle : ℤ
  maxT : ℚ
  minT : ℚ
  input : ℚ
  safety_check_cycles : ℕ
  temp_ambient : ℚ
  temp_millis : ℕ
  duty : ℤ
  deriving Repr, DecidableEq

/-- The Ziegler-Nichols quantities printed when `pid_cycle > 2`
(lines 336-347). -/
structure ZNGains where
  Ku : ℚ
  Tu : ℚ
  Kp : ℚ
  Ki : ℚ
  Kd : ℚ
  deriving Repr, DecidableEq

/-- The `bias/d/min/max` report printed when `pid_cycle > 0` at a low-to-high
toggle (lines 332-335), extended with the `t_low`/`t_high` values in force
and, when `pid_cycle > 2`, the Ziegler-Nichols gains. -/
structure ZNReport where
  bias : ℤ
  d : ℤ
  minT : ℚ
  maxT : ℚ
  t_low : ℤ
  t_high : ℤ
  pid_cycle : ℤ
  gains : Option ZNGains
  deriving Repr, DecidableEq

/-- How an iteration of the autotune loop terminates. -/
inductive TuneExit
  | tooHigh
  | noRise
  | timeout
  | finished
  deriving Repr, DecidableEq

/-- The Ziegler-Nichols computation of lines 337-343:
`Ku = (4.0*d)/(3.14159*(max-min)/2.0)`, `Tu = (t_low+t_high)/1000.0`,
`Kp = 0.6*Ku`, `Ki = 2*Kp/Tu`, `Kd = Kp*Tu/8`. -/
def mkZNGains (d : ℤ) (maxT minT : ℚ) (t_low t_high : ℤ) : ZNGains :=
  let KuV : ℚ := (4 * (d : ℚ)) / (piC * (maxT - minT) / 2)
  let TuV : ℚ := ((t_low + t_high : ℤ) : ℚ) / 1000
  let KpV : ℚ := (3 / 5) * KuV
  { Ku := KuV, Tu := TuV, Kp := KpV, Ki := 2 * KpV / TuV, Kd := KpV * TuV / 8 }

/-- The report block of lines 332-364: the `bias/d/min/max` line always, the
gains only when `pid_cycle > 2`. -/
def mkZNReport (cycle bias d : ℤ) (minT maxT : ℚ) (t_low t_high : ℤ) : ZNReport :=
  { bias := bias, d := d, minT := minT, maxT := maxT, t_low := t_low, t_high := t_high,
    pid_cycle := cycle,
    gains := if cycle > (2 : ℤ) then some (mkZNGains d maxT minT t_low t_high) else none }

/-- The sample-processing block of the loop (lines 291-377): update the
input and its running min/max, perform the high-to-low toggle (lines
306-320) and the low-to-high toggle with the bias/d update and the report
(lines 321-376).  C integer division (`tdiv`) truncates toward zero; the
arithmetic right shift `>> 1` is a floor division by two. -/
def tuneRelay (P : TuneParams) (now : ℕ) (sample : ℚ) (s : TuneState) :
    TuneState × Option ZNReport :=
  let s0 := { s with input := sample, maxT := max s.maxT sample, minT := min s.minT sample }
  let s1 :=
    if s0.heating = true ∧ s0.input > P.temp ∧ now - s0.t2 > 5000 then
      { s0 with
        heating := false, duty := (s0.bias - s0.d) / 2, t1 := now,
        t_high := (now : ℤ) - (s0.t2 : ℤ), maxT := P.temp }
    else s0
  if s1.heating = false ∧ s1.input < P.temp ∧ now - s1.t1 > 5000 then
    let t_lowN : ℤ := (now : ℤ) - (s1.t1 : ℤ)
    if s1.pid_cycle > 0 then
      let bias1 := s1.bias + Int.tdiv (s1.d * (s1.t_high - t_lowN)) (t_lowN + s1.t_high)
      let bias2 := min (max bias1 20) (P.maxPower - 20)
      let dN := if bias2 > P.maxPower / 2 then P.maxPower - 1 - bias2 else bias2
      let rep : ZNReport := mkZNReport s1.pid_cycle bias2 dN s1.minT s1.maxT t_lowN s1.t_high
      ({ s1 with
          heating := true, t2 := now, t_low := t_lowN, bias := bias2, d := dN,
          duty := (bias2 + dN) / 2, pid_cycle := s1.pid_cycle + 1, minT := P.temp },
       some rep)
    else
      ({ s1 with
          heating := true, t2 := now, t_low := t_lowN,
          duty := (s1.bias + s1.d) / 2, pid_cycle := s1.pid_cycle + 1, minT := P.temp },
       none)
  else (s1, none)

/-- The 2-second report and warm-up safety check (lines 384-420):
`safety_check_cycles_count` is 45 for the bed and 10 for a hotend
(line 253); at the first report tick the ambient temperature is recorded; at
tick number `count` the loop fails (`temp_runaway_stop`, second component
`true`) when the input differs from the recorded ambient by less than 5 °C
in absolute value. -/
def tuneSafety (P : TuneParams) (now : ℕ) (s : TuneState) : TuneState × Bool :=
  if now - s.temp_millis > 2000 then
    let count : ℕ := if P.isBed then 45 else 10
    if s.safety_check_cycles = 0 then
      ({ s with
          temp_ambient := s.input, safety_check_cycles := s.safety_check_cycles + 1,
          temp_millis := now }, false)
    else if s.safety_check_cycles < count then
      ({ s with safety_check_cycles := s.safety_check_cycles + 1, temp_millis := now }, false)
    else if s.safety_check_cycles = count then
      if |s.input - s.temp_ambient| < 5 then
        ({ s with safety_check_cycles := s.safety_check_cycles + 1 }, true)
      else
        ({ s with safety_check_cycles := s.safety_check_cycles + 1, temp_millis := now }, false)
    else ({ s with temp_millis := now }, false)
  else (s, false)

/-- One iteration of the `PID_autotune` loop (lines 287-434): the sample
block runs when a sample is ready (line 291); then in order the
`input > temp + 20` failure (line 378), the report tick with the warm-up
check (lines 384-420), the `(now - t1) + (now - t2) > 20 min` timeout
(line 421) and the `pid_cycle > ncycles` success exit (line 427). -/
def autotuneStep (P : TuneParams) (now : ℕ) (sampleReady : Bool) (sample : ℚ)
    (s : TuneState) : TuneState × Option ZNReport × Option TuneExit :=
  let sr := if sampleReady then tuneRelay P now sample s else (s, none)
  let s1 := sr.1
  let rep := sr.2
  if s1.input > P.temp + 20 then (s1, rep, some TuneExit.tooHigh)
  else
    let sb := tuneSafety P now s1
    if sb.2 then (sb.1, rep, some TuneExit.noRise)
    else
      let s2 := sb.1
      if ((now : ℤ) - (s2.t1 : ℤ)) + ((now : ℤ) - (s2.t2 : ℤ)) > 1200000 then
        (s2, rep, some TuneExit.timeout)
      else if s2.pid_cycle > P.ncycles then (s2, rep, some TuneExit.finished)
      else (s2, rep, none)

/-- The report emitted by one loop iteration comes from the sample block
alone: the failure checks pass it through unchanged. -/
theorem autotuneStep_report (P : TuneParams) (now : ℕ) (ready : Bool) (sample : ℚ)
    (s : TuneState) :
    (autotuneStep P now ready sample s).2.1 =
      (if ready then tuneRelay P now sample s else (s, none)).2 := by
  simp only [autotuneStep]
  split_ifs <;> rfl

theorem mkZNReport_gains (cycle bias d : ℤ) (minT maxT : ℚ) (t_low t_high : ℤ)
    (g : ZNGains) (h : (mkZNReport cycle bias d minT maxT t_low t_high).gains = some g) :
    cycle > 2 ∧ g = mkZNGains d maxT minT t_low t_high := by
  simp only [mkZNReport] at h
  split at h
  · exact ⟨by assumption, (Option.some.inj h).symm⟩
  · exact Option.noConfusion h

theorem tuneRelay_report_shape (P : TuneParams) (now : ℕ) (sample : ℚ) (s : TuneState)
    (r : ZNReport) (hr : (tuneRelay P now sample s).2 = some r) :
    ∃ cycle bias d minT maxT t_low t_high,
      r = mkZNReport cycle bias d minT maxT t_low t_high := by
  simp only [tuneRelay, apply_ite Prod.snd] at hr
  repeat' split at hr
  all_goals
    first
      | exact Option.noConfusion hr
      | exact ⟨_, _, _, _, _, _, _, (Option.some.inj hr).symm⟩

/-- Claim C5: Ziegler-Nichols gain computation.  Whenever an iteration of the
autotune loop reports gains, at least two full relay cycles have completed
(`pid_cycle > 2`) and the reported quantities satisfy
`Ku = 4d / (pi * (max - min) / 2)` (with the source's value 3.14159 for pi),
`Tu = (t_low + t_high) / 1000` (milliseconds to seconds),
`Kp = 0.6 * Ku`, `Ki = 2 * Kp / Tu` and `Kd = Kp * Tu / 8`. -/
theorem C5_ziegler_nichols_gains (P : TuneParams) (now : ℕ) (ready : Bool)
    (sample : ℚ) (s : TuneState) (r : ZNReport) (g : ZNGains)
    (hr : (autotuneStep P now ready sample s).2.1 = some r)
    (hg : r.gains = some g) :
    r.pid_cycle > 2 ∧
    g.Ku = 4 * (r.d : ℚ) / (piC * (r.maxT - r.minT) / 2) ∧
    g.Tu = ((r.t_low + r.t_high : ℤ) : ℚ) / 1000 ∧
    g.Kp = (3 / 5) * g.Ku ∧
    g.Ki = 2 * g.Kp / g.Tu ∧
    g.Kd = g.Kp * g.Tu / 8 := by
  rw [autotuneStep_report] at hr
  cases ready with
  | false => exact Option.noConfusion hr
  | true =>
    rw [if_pos rfl] at hr
    obtain ⟨cycle, bias, d, minT, maxT, t_low, t_high, rfl⟩ :=
      tuneRelay_report_shape P now sample s r hr
    obtain ⟨hcy, rfl⟩ := mkZNReport_gains cycle bias d minT maxT t_low t_high g hg
    exact ⟨hcy, rfl, rfl, rfl, rfl, rfl⟩

/-- The state after the (conditional) sample block of one loop iteration. -/
def tuneSampled (P : TuneParams) (now : ℕ) (ready : Bool) (sample : ℚ)
    (s : TuneState) : TuneState :=
  (if ready then tuneRelay P now sample s else (s, none)).1

/-- The safety block does not touch the toggle timestamps or the cycle
counter. -/
theorem tuneSafety_preserves (P : TuneParams) (now : ℕ) (s : TuneState) :
    (tuneSafety P now s).1.t1 = s.t1 ∧ (tuneSafety P now s).1.t2 = s.t2 ∧
    (tuneSafety P now s).1.pid_cycle = s.pid_cycle := by
  simp only [tuneSafety]
  split_ifs <;> exact ⟨rfl, rfl, rfl⟩

/-- The safety block reports a failure exactly at a report tick at which the
warm-up counter equals `safety_check_cycles_count` and the input is within
5 °C of the recorded ambient. -/
theorem tuneSafety_true_iff (P : TuneParams) (now : ℕ) (s : TuneState) :
    (tuneSafety P now s).2 = true ↔
      (now - s.temp_millis > 2000 ∧
       s.safety_check_cycles = (if P.isBed then 45 else 10) ∧
       |s.input - s.temp_ambient| < 5) := by
  have hcount : (if P.isBed then (45 : ℕ) else 10) ≠ 0 := by cases P.isBed <;> simp
  simp only [tuneSafety]
  split_ifs with h1 h2 h3 h4 h5 <;> simp_all <;> (intro hc; omega)

/-- The exit of one loop iteration as a decision chain over the sampled
state. -/
theorem autotuneStep_exit (P : TuneParams) (now : ℕ) (ready : Bool) (sample : ℚ)
    (s : TuneState) :
    (autotuneStep P now ready sample s).2.2 =
      (if (tuneSampled P now ready sample s).input > P.temp + 20 then
        some TuneExit.tooHigh
      else if (tuneSafety P now (tuneSampled P now ready sample s)).2 then
        some TuneExit.noRise
      else if ((now : ℤ) - ((tuneSafety P now (tuneSampled P now ready sample s)).1.t1 : ℤ)) +
          ((now : ℤ) - ((tuneSafety P now (tuneSampled P now ready sample s)).1.t2 : ℤ))
            > 1200000 then
        some TuneExit.timeout
      else if (tuneSafety P now (tuneSampled P now ready sample s)).1.pid_cycle > P.ncycles then
        some TuneExit.finished
      else none) := by
  simp only [autotuneStep, tuneSampled]
  split_ifs <;> rfl

/-- Claim C6 (amended): the autotune loop iteration reports a failure exactly
when: the (just-updated) input exceeds `target + 20`; or at a 2-second report
tick the warm-up counter equals the configured count (10 for a hotend, 45
for the bed) and the input is within 5 °C of the recorded ambient in
absolute value; or the sum of the time since the last switch to cooling
(`t1`) and the time since the last switch to heating (`t2`) exceeds 20
minutes. -/
theorem C6_autotune_abort_conditions (P : TuneParams) (now : ℕ) (ready : Bool)
    (sample : ℚ) (s : TuneState) :
    ((autotuneStep P now ready sample s).2.2 = some TuneExit.tooHigh ∨
     (autotuneStep P now ready sample s).2.2 = some TuneExit.noRise ∨
     (autotuneStep P now ready sample s).2.2 = some TuneExit.timeout) ↔
      ((tuneSampled P now ready sample s).input > P.temp + 20 ∨
       (now - (tuneSampled P now ready sample s).temp_millis > 2000 ∧
        (tuneSampled P now ready sample s).safety_check_cycles =
          (if P.isBed then 45 else 10) ∧
        |(tuneSampled P now ready sample s).input -
          (tuneSampled P now ready sample s).temp_ambient| < 5) ∨
       ((now : ℤ) - ((tuneSampled P now ready sample s).t1 : ℤ)) +
          ((now : ℤ) - ((tuneSampled P now ready sample s).t2 : ℤ)) > 1200000) := by
  rw [autotuneStep_exit, ← tuneSafety_true_iff P now (tuneSampled P now ready sample s)]
  rw [(tuneSafety_preserves P now (tuneSampled P now ready sample s)).1,
      (tuneSafety_preserves P now (tuneSampled P now ready sample s)).2.1]
  split_ifs with hA hB hC hD <;> simp_all

/-- The autotune parameters used by the C6 counterexample: a hotend tune to
210 °C with 8 cycles. -/
def tuneCexParams : TuneParams :=
  { temp := 210, ncycles := 8, maxPower := 255, isBed := false }

/-- The loop state at entry for the C6 counterexample: fresh start
(`t1 = t2 = temp_millis = 0`). -/
def tuneCexState : TuneState :=
  { heating := true, t1 := 0, t2 := 0, t_high := 0, t_low := 0, bias := 127, d := 127,
    pid_cycle := 0, maxT := 0, minT := 10000, input := 0, safety_check_cycles := 0,
    temp_ambient := 0, temp_millis := 0, duty := 127 }

/-- Counterexample to claim C6 as stated: started at time 0
(`t1 = t2 = 0`) and polled at `now = 700001` ms (about 11.7 minutes), the
iteration reports the `timeout` failure because
`(now - t1) + (now - t2) = 1400002 > 1200000`, although the total elapsed
time is under 20 minutes, the input (30 °C) does not exceed target + 20 and
the warm-up (10 report cycles) has not even completed - none of the claim's
three conditions holds. -/
theorem C6_autotune_abort_counterexample :
    (autotuneStep tuneCexParams 700001 true 30 tuneCexState).2.2 =
      some TuneExit.timeout ∧
    ¬((30 : ℚ) > tuneCexParams.temp + 20) ∧
    (700001 : ℤ) - 0 ≤ 1200000 ∧
    tuneCexState.safety_check_cycles = 0 := by
  refine ⟨?_, by norm_num [tuneCexParams], by norm_num, rfl⟩
  simp only [autotuneStep, tuneRelay, tuneSafety, tuneCexParams, tuneCexState]
  norm_num [max_def, min_def]

/-- The autotune parameters for the C5 witness. -/
def tuneExampleParams : TuneParams :=
  { temp := 210, ncycles := 8, maxPower := 255, isBed := false }

/-- A loop state in its fourth relay cycle (`pid_cycle = 3`), cooling
(`heating = false`) and about to toggle back to heating. -/
def tuneExampleState : TuneState :=
  { heating := false, t1 := 0, t2 := 0, t_high := 30000, t_low := 20000, bias := 100,
    d := 100, pid_cycle := 3, maxT := 230, minT := 190, input := 200,
    safety_check_cycles := 11, temp_ambient := 25, temp_millis := 9000, duty := 100 }

/-- The report emitted at the C5 witness step: at the low-to-high toggle at
`now = 10000` the new `t_low` is 10000, `bias` becomes
`100 + (100 * (30000 - 10000)) / (10000 + 30000) = 150` and `d` becomes
`255 - 1 - 150 = 104`. -/
def tuneExampleReport : ZNReport := mkZNReport 3 150 104 190 230 10000 30000

/-- The gains of the C5 witness report. -/
def tuneExampleGains : ZNGains := mkZNGains 104 230 190 10000 30000

/-- Witness for C5: a concrete iteration in the fourth cycle emits a report
with gains, and they satisfy the Ziegler-Nichols relations. -/
theorem C5_ziegler_nichols_gains_witness :
    (autotuneStep tuneExampleParams 10000 true 200 tuneExampleState).2.1 =
      some tuneExampleReport ∧
    tuneExampleReport.gains = some tuneExampleGains ∧
    tuneExampleGains.Kp = (3 / 5) * tuneExampleGains.Ku ∧
    tuneExampleGains.Ki = 2 * tuneExampleGains.Kp / tuneExampleGains.Tu ∧
    tuneExampleGains.Kd = tuneExampleGains.Kp * tuneExampleGains.Tu / 8 := by
  have h1 : (autotuneStep tuneExampleParams 10000 true 200 tuneExampleState).2.1 =
      some tuneExampleReport := by
    rw [autotuneStep_report, if_pos rfl]
    have ht : Int.tdiv 2000000 40000 = 50 := by decide
    simp only [tuneRelay, tuneExampleParams, tuneExampleState, tuneExampleReport]
    norm_num [max_def, min_def, ht]
  have h2 : tuneExampleReport.gains = some tuneExampleGains := by
    simp only [tuneExampleReport, tuneExampleGains, mkZNReport]
    norm_num
  have h := C5_ziegler_nichols_gains tuneExampleParams 10000 true 200 tuneExampleState
    tuneExampleReport tuneExampleGains h1 h2
  exact ⟨h1, h2, h.2.2.2.1, h.2.2.2.2.1, h.2.2.2.2.2⟩

end Thermal
